import Mathlib

/-!
Shallow embedding of `enviroplus_exporter.py`: the per-channel sensor
health state machine (active flag + consecutive-failure counter), the unit
conversions (`calc_ppm`, O2 percent, particulate deltas, CPU-compensated
temperature), and the startup failure handlers.

Numeric values are modelled as rationals (`ℚ`); Python decimal literals such
as `0.212` are taken at their exact decimal value.  Python's `round(x, 2)`
is modelled as exact decimal round-half-to-even.  A driver read is modelled
as a `ReadResult`: either a successful payload or a failure standing for any
of the exception types the poll functions catch
(`IOError, RuntimeError, OSError, ValueError`, plus the PMS5003 timeout and
checksum errors for the particulate channel).
-/

namespace Enviro

/-- Python exceptions that the embedded code can raise or propagate. -/
inductive PyExn where
  | valueError
  | typeError
  | unboundLocal
deriving DecidableEq

/-- Outcome of one driver read: a payload, or a raised exception of one of
the types caught by the poll function's `except` clause. -/
inductive ReadResult (α : Type) where
  | ok (v : α)
  | fail
deriving DecidableEq

/-- Health state of one sensor channel: its `xActive` flag and `xCount`
consecutive-failure counter from the source's module-level globals. -/
structure Channel where
  active : Bool
  count : ℕ
deriving DecidableEq

/-- Source line 44: `MAXCOUNT = 2`. -/
def MAXCOUNT : ℕ := 2

/-- Source line 45: `MINCOUNT = 0`. -/
def MINCOUNT : ℕ := 0

/-- Initial state of a channel whose device initialises successfully:
`xActive = True` (lines 35-42), `xCount = MINCOUNT` (lines 48-55). -/
def initialChannel : Channel := ⟨true, MINCOUNT⟩

/-- Round-half-to-even on an exact rational, as Python's `round` ties rule. -/
def roundHalfEven (q : ℚ) : ℤ :=
  let f := ⌊q⌋
  let r := q - (f : ℚ)
  if r < 1 / 2 then f
  else if r > 1 / 2 then f + 1
  else if f % 2 = 0 then f else f + 1

/-- Python's `round(x, 2)` modelled exactly over the rationals. -/
def pyRound2 (q : ℚ) : ℚ := (roundHalfEven (q * 100) : ℚ) / 100

/-- Source line 101: `_base_ox = 108706`. -/
def _base_ox : ℚ := 108706

/-- Source line 102: `_base_red = 396941`. -/
def _base_red : ℚ := 396941

/-- Source line 103: `_base_nh3 = 365918`. -/
def _base_nh3 : ℚ := 365918

/-- Source line 106: `_ox_factor = 0.01`. -/
def _ox_factor : ℚ := 1 / 100

/-- Source line 107: `_red_factor = 2.0`. -/
def _red_factor : ℚ := 2

/-- Source line 108: `_nh3_factor = 1.7`. -/
def _nh3_factor : ℚ := 17 / 10

/-- Python's `10 ** (log10 x)`: `math.log10` raises `ValueError` (math
domain error) for `x ≤ 0`; for `x > 0` the real-valued composition is the
identity, which is how the source uses it in `calc_ppm`. -/
def tenPowLog10 (x : ℚ) : Except PyExn ℚ :=
  if 0 < x then .ok x else .error .valueError

/-- Model of `calc_ppm` (source lines 246-269), with the module globals it
reads (`_base_*`, `_*_factor`) passed explicitly.  Each of the three
conversions sits in a `try` that catches `ZeroDivisionError` only
(substituting `0.0`); the `ValueError` that `log10` raises on a non-positive
ratio is not caught and propagates to the caller. -/
def calc_ppm (baseOx baseRed baseNh3 oxFactor redFactor nh3Factor ox red nh3 : ℚ) :
    Except PyExn (ℚ × ℚ × ℚ) :=
  let oxidising : ℚ :=
    if baseOx = 0 then 0 else pyRound2 ((ox / baseOx) * oxFactor)
  let reducing : Except PyExn ℚ :=
    if baseRed = 0 then .ok 0
    else
      match tenPowLog10 (red / baseRed) with
      | .ok r => .ok (pyRound2 (r * redFactor))
      | .error e => .error e
  let ammonia : Except PyExn ℚ :=
    if baseNh3 = 0 then .ok 0
    else
      match tenPowLog10 (nh3 / baseNh3) with
      | .ok r => .ok (pyRound2 (r * nh3Factor))
      | .error e => .error e
  match reducing with
  | .error e => .error e
  | .ok r =>
    match ammonia with
    | .error e => .error e
    | .ok a => .ok (oxidising, r, a)

/-- CPU-temperature smoothing exactly as written inside `get_temperature`
(source lines 169-173): a fresh local list each call, built from the two
`get_cpu_temperature()` samples taken during that same call —
`cpu_temps = [sample1] * 5`, then `cpu_temps[1:] + [sample2]`, then its
average.  Nothing persists across calls. -/
def avgCpuTemp (sample1 sample2 : ℚ) : ℚ :=
  let cpu_temps := List.replicate 5 sample1
  let cpu_temp := sample2
  let cpu_temps2 := cpu_temps.tail ++ [cpu_temp]
  cpu_temps2.sum / (cpu_temps2.length : ℚ)

/-- Value of `tempCount` immediately after the `tempCount += 1` statement
that opens `get_temperature`'s inactive branch (source line 181). -/
def tempInactiveIncrement (st : Channel) : ℕ := st.count + 1

/-- The whole inactive branch of `get_temperature` (source lines 180-188):
`tempCount += 1`, then the cooldown check `if tempCount > MINCOUNT:
tempCount -= 1 else: tempCount = MINCOUNT; tempActive = True`. -/
def tempInactiveStep (st : Channel) : Channel :=
  let c := tempInactiveIncrement st
  if c > MINCOUNT then ⟨st.active, c - 1⟩ else ⟨true, MINCOUNT⟩

/-- Result of one `get_temperature` call: the channel state on exit, the
last value written to the `TEMPERATURE` gauge, and the exception (if any)
that escapes the call. -/
structure TempResult where
  st : Channel
  gauge : ℚ
  exn : Option PyExn
deriving DecidableEq

/-- Model of `get_temperature` (source lines 149-188).  `sample1`/`sample2`
are the two `get_cpu_temperature()` results of this call; `factor` is the
compensation factor, with `0` standing for the falsy Python values
(`None`/`0.0`) in `if factor:`.  On a failed read the `except` handler sets
the gauge to 0 and updates the streak, but control then falls through to the
compensation block / `temperature = raw_temp` (lines 168-176), where
`raw_temp` was never bound — so the call raises `UnboundLocalError` for
every value of `factor`, and line 178's `TEMPERATURE.set(temperature)` is
never reached. -/
def get_temperature (factor sample1 sample2 : ℚ) (st : Channel)
    (read : ReadResult ℚ) : TempResult :=
  if st.active then
    match read with
    | .ok raw_temp =>
      if factor ≠ 0 then
        let temperature := raw_temp - ((avgCpuTemp sample1 sample2 - raw_temp) / factor)
        ⟨st, temperature, none⟩
      else
        ⟨st, raw_temp, none⟩
    | .fail =>
      let c := st.count + 1
      let st' := if c ≥ MAXCOUNT then Channel.mk false MAXCOUNT else Channel.mk st.active c
      ⟨st', 0, some PyExn.unboundLocal⟩
  else
    ⟨tempInactiveStep st, 0, none⟩

/-- Model of `get_pressure` (source lines 190-215): returns the channel
state on exit and the value written to the `PRESSURE` gauge. -/
def get_pressure (st : Channel) (read : ReadResult ℚ) : Channel × ℚ :=
  if st.active then
    match read with
    | .ok pressure => (st, pressure)
    | .fail =>
      let c := st.count + 1
      if c ≥ MAXCOUNT then (⟨false, MAXCOUNT⟩, 0) else (⟨st.active, c⟩, 0)
  else
    if st.count > MINCOUNT then (⟨st.active, st.count - 1⟩, 0)
    else (⟨true, MINCOUNT⟩, 0)

/-- Model of `get_humidity` (source lines 218-244): same shape as
`get_pressure`, writing the `HUMIDITY` gauge. -/
def get_humidity (st : Channel) (read : ReadResult ℚ) : Channel × ℚ :=
  if st.active then
    match read with
    | .ok humidity => (st, humidity)
    | .fail =>
      let c := st.count + 1
      if c ≥ MAXCOUNT then (⟨false, MAXCOUNT⟩, 0) else (⟨st.active, c⟩, 0)
  else
    if st.count > MINCOUNT then (⟨st.active, st.count - 1⟩, 0)
    else (⟨true, MINCOUNT⟩, 0)

/-- The shared `except` body of `get_gas` (source lines 287-304): zero all
three gauges and histograms, bump `gasCount`, clamp and deactivate at
`MAXCOUNT`.  In the source a single handler serves both a failed
`gas.read_all()` and a `ValueError` escaping `calc_ppm`, since both are
raised inside the same `try`. -/
def gasReadFail (st : Channel) : Channel × (ℚ × ℚ × ℚ) :=
  let c := st.count + 1
  if c ≥ MAXCOUNT then (⟨false, MAXCOUNT⟩, (0, 0, 0)) else (⟨st.active, c⟩, (0, 0, 0))

/-- Model of `get_gas` (source lines 271-329): returns the channel state on
exit and the triple written to the `OXIDISING`/`REDUCING`/`NH3` gauges (each
histogram observes the same value as its gauge in every path). -/
def get_gas (st : Channel) (read : ReadResult (ℚ × ℚ × ℚ)) : Channel × (ℚ × ℚ × ℚ) :=
  if st.active then
    match read with
    | .ok (ox, red, nh3) =>
      match calc_ppm _base_ox _base_red _base_nh3 _ox_factor _red_factor _nh3_factor ox red nh3 with
      | .ok ppm => (st, ppm)
      | .error _ => gasReadFail st
    | .fail => gasReadFail st
  else
    if st.count > MINCOUNT then (⟨st.active, st.count - 1⟩, (0, 0, 0))
    else (⟨true, MINCOUNT⟩, (0, 0, 0))

/-- Model of `get_o2` (source lines 332-363): on success the ADC value is
first rounded to 2 decimals (`adc = round(adc, 2)`, line 340) and the value
`((adc * 0.212) / 2.0) * 100` — with no further rounding — is written to the
`O2` gauge and observed by the `O2` histogram. -/
def get_o2 (st : Channel) (read : ReadResult ℚ) : Channel × ℚ :=
  if st.active then
    match read with
    | .ok adcRaw =>
      let adc := pyRound2 adcRaw
      (st, ((adc * (212 / 1000)) / 2) * 100)
    | .fail =>
      let c := st.count + 1
      if c ≥ MAXCOUNT then (⟨false, MAXCOUNT⟩, 0) else (⟨st.active, c⟩, 0)
  else
    if st.count > MINCOUNT then (⟨st.active, st.count - 1⟩, 0)
    else (⟨true, MINCOUNT⟩, 0)

/-- Model of `get_co2` (source lines 366-396): returns the channel state on
exit and the value written to the `CO2` gauge and histogram. -/
def get_co2 (st : Channel) (read : ReadResult ℚ) : Channel × ℚ :=
  if st.active then
    match read with
    | .ok co2 => (st, co2)
    | .fail =>
      let c := st.count + 1
      if c ≥ MAXCOUNT then (⟨false, MAXCOUNT⟩, 0) else (⟨st.active, c⟩, 0)
  else
    if st.count > MINCOUNT then (⟨st.active, st.count - 1⟩, 0)
    else (⟨true, MINCOUNT⟩, 0)

/-- Model of `get_light` (source lines 399-431): a single `lightActive` flag
and single `lightCount` counter govern both metrics; the returned pair is
the values written to the `LUX` and `PROXIMITY` gauges this cycle. -/
def get_light (st : Channel) (read : ReadResult (ℚ × ℚ)) : Channel × (ℚ × ℚ) :=
  if st.active then
    match read with
    | .ok (lux, prox) => (st, (lux, prox))
    | .fail =>
      let c := st.count + 1
      if c ≥ MAXCOUNT then (⟨false, MAXCOUNT⟩, (0, 0)) else (⟨st.active, c⟩, (0, 0))
  else
    if st.count > MINCOUNT then (⟨st.active, st.count - 1⟩, (0, 0))
    else (⟨true, MINCOUNT⟩, (0, 0))

/-- Values written by one `get_particulates` call: the three gauges and the
three histogram observations. -/
structure PartOut where
  pm1Gauge : ℚ
  pm25Gauge : ℚ
  pm10Gauge : ℚ
  pm1Obs : ℚ
  pm25Obs : ℚ
  pm10Obs : ℚ
deriving DecidableEq

/-- Model of `get_particulates` (source lines 434-477); a successful read
yields the cumulative readings `(pm1, pm25, pm10)` from
`pms_data.pm_ug_per_m3(1.0 / 2.5 / 10)`. -/
def get_particulates (st : Channel) (read : ReadResult (ℚ × ℚ × ℚ)) : Channel × PartOut :=
  if st.active then
    match read with
    | .ok (pm1, pm25, pm10) =>
      (st, ⟨pm1, pm25, pm10, pm1, pm25 - pm1, pm10 - pm25⟩)
    | .fail =>
      let c := st.count + 1
      if c ≥ MAXCOUNT then (⟨false, MAXCOUNT⟩, ⟨0, 0, 0, 0, 0, 0⟩)
      else (⟨st.active, c⟩, ⟨0, 0, 0, 0, 0, 0⟩)
  else
    if st.count > MINCOUNT then (⟨st.active, st.count - 1⟩, ⟨0, 0, 0, 0, 0, 0⟩)
    else (⟨true, MINCOUNT⟩, ⟨0, 0, 0, 0, 0, 0⟩)

/-- A Python value, as far as the startup handlers manipulate them. -/
inductive PyVal where
  | bool (b : Bool)
  | int (n : ℤ)
  | triple (a b c : PyVal)
deriving DecidableEq

/-- Python iterable unpacking `x, y, z = v`: succeeds only when `v` is a
3-element sequence; unpacking a `bool` or `int` raises `TypeError`. -/
def unpack3 (v : PyVal) : Except PyExn (PyVal × PyVal × PyVal) :=
  match v with
  | .triple a b c => .ok (a, b, c)
  | _ => .error .typeError

/-- The `except` handler for a failed `BME280` construction (source lines
88-91): it executes `tempActive, pressActive, humActive = False` and then
`tempCount, pressCount, humCount = MAXCOUNT`.  The first statement already
unpacks a non-iterable `bool`, so the handler raises before assigning
anything; the `.ok` arm records the states the handler's text would
establish if the unpackings succeeded. -/
def bme280InitFailHandler : Except PyExn (Channel × Channel × Channel) :=
  match unpack3 (.bool false) with
  | .error e => .error e
  | .ok _ =>
    match unpack3 (.int (MAXCOUNT : ℤ)) with
    | .error e => .error e
    | .ok _ => .ok (⟨false, MAXCOUNT⟩, ⟨false, MAXCOUNT⟩, ⟨false, MAXCOUNT⟩)

/-- The `except` handler for a failed `PMS5003` construction (source lines
95-98): `partActive = False; partCount = MAXCOUNT`. -/
def pmsInitFailHandler : Channel := ⟨false, MAXCOUNT⟩

/-- The `except` handler for a failed IO-expander setup (source lines
64-67): `o2Active = False; o2Count = MAXCOUNT`. -/
def ioeInitFailHandler : Channel := ⟨false, MAXCOUNT⟩

/-- The `except` handler for a failed `SCD4X` setup (source lines 524-526):
it sets `co2Active = False` only, leaving `co2Count` at whatever it held
(the module-level initial `MINCOUNT`). -/
def scd4xInitFailHandler (st : Channel) : Channel := ⟨false, st.count⟩

/-- Channel state after `n` cycles of `get_pressure` in which every read
attempt fails, starting from the freshly initialised channel. -/
def pressureFailRun : ℕ → Channel
  | 0 => initialChannel
  | n + 1 => (get_pressure (pressureFailRun n) .fail).1

/-- Channel state after `n` cycles of `get_temperature` in which every read
attempt fails, starting from the freshly initialised channel. -/
def tempFailRun (factor sample1 sample2 : ℚ) : ℕ → Channel
  | 0 => initialChannel
  | n + 1 => (get_temperature factor sample1 sample2 (tempFailRun factor sample1 sample2 n) .fail).st

/-- Modelled from the spec for comparison with `avgCpuTemp`: the CPU sample
history the spec describes — retained across cycles, one sample per cycle,
seeded by replicating the first sample five times, then shifting. -/
def specCpuHist (stream : ℕ → ℚ) : ℕ → List ℚ
  | 0 => List.replicate 5 (stream 0)
  | n + 1 => (specCpuHist stream n).tail ++ [stream (n + 1)]

/-- Modelled from the spec: the 5-sample trailing moving average of CPU
temperature at cycle `n`. -/
def specAvgCpuTemp (stream : ℕ → ℚ) (n : ℕ) : ℚ :=
  (specCpuHist stream n).sum / ((specCpuHist stream n).length : ℚ)

/-- Modelled from the spec: the compensated temperature the spec says cycle
`n` reports, `raw - ((avgCpuTemp - raw) / factor)` over the retained
average. -/
def specTempReport (stream : ℕ → ℚ) (factor raw : ℚ) (n : ℕ) : ℚ :=
  raw - ((specAvgCpuTemp stream n - raw) / factor)

/-- What the code reports at cycle `n` of an always-succeeding run (success
leaves the state at `initialChannel`): each call consumes the next two CPU
samples from the stream. -/
def codeTempReport (stream : ℕ → ℚ) (factor raw : ℚ) (n : ℕ) : ℚ :=
  (get_temperature factor (stream (2 * n)) (stream (2 * n + 1)) initialChannel (.ok raw)).gauge

/-- Helper: with the module's nonzero baselines and strictly positive
reducing/ammonia readings, `calc_ppm` succeeds with the three rounded
conversions. -/
lemma calc_ppm_pos (ox red nh3 : ℚ) (hr : 0 < red) (hn : 0 < nh3) :
    calc_ppm _base_ox _base_red _base_nh3 _ox_factor _red_factor _nh3_factor ox red nh3
      = .ok (pyRound2 ((ox / _base_ox) * _ox_factor),
             pyRound2 ((red / _base_red) * _red_factor),
             pyRound2 ((nh3 / _base_nh3) * _nh3_factor)) := by
  have h1 : (0 : ℚ) < red / _base_red := div_pos hr (by norm_num [_base_red])
  have h2 : (0 : ℚ) < nh3 / _base_nh3 := div_pos hn (by norm_num [_base_nh3])
  simp [calc_ppm, tenPowLog10, h1, h2, hr, hn, _base_ox, _base_red, _base_nh3]

/-- Helper: with the module's nonzero baselines, a non-positive reducing
reading makes `log10` raise, and the `ValueError` escapes `calc_ppm`. -/
lemma calc_ppm_nonpos_red (ox red nh3 : ℚ) (hr : red ≤ 0) :
    calc_ppm _base_ox _base_red _base_nh3 _ox_factor _red_factor _nh3_factor ox red nh3
      = .error PyExn.valueError := by
  have h1 : ¬ (0 : ℚ) < red := not_lt.mpr hr
  simp [calc_ppm, tenPowLog10, h1, _base_red]

/-- Claim C1: starting active with a zero failure streak under `MAXCOUNT=2`,
`MINCOUNT=0`, an all-failing run of `get_pressure` yields the active-state
trace true, true, false, then two cooldown cycles and reactivation on the
next cycle, with the gauge written 0 on each of those cycles; the same run
of `get_temperature`, however, never reactivates: its inactive branch
increments and then decrements `tempCount`, so the cooldown makes no
progress and the trace ends false, false, false instead of recovering. -/
theorem c1_fail_cooldown_trace :
    ((List.range 5).map fun i => (pressureFailRun (i + 1)).active)
      = [true, false, false, false, true] ∧
    ((List.range 5).map fun i => (get_pressure (pressureFailRun i) .fail).2)
      = [0, 0, 0, 0, 0] ∧
    ((List.range 5).map fun i => (tempFailRun 0 0 0 (i + 1)).active)
      = [true, false, false, false, false] ∧
    ((List.range 5).map fun i => (get_temperature 0 0 0 (tempFailRun 0 0 0 i) .fail).gauge)
      = [0, 0, 0, 0, 0] := by
  decide

/-- Claim C2: a failing read while the temperature channel is active does
not return normally — for every compensation factor the exception escaping
`get_temperature` is `UnboundLocalError`, because after the `except` handler
runs, control falls through to code that uses the never-bound `raw_temp`. -/
theorem c2_get_temperature_raises (factor a b : ℚ) (st : Channel)
    (h : st.active = true) :
    (get_temperature factor a b st .fail).exn = some PyExn.unboundLocal := by
  simp [get_temperature, h]

/-- Witness for C2 at factor 0 (and the hypothesis discharged at a concrete
active state). -/
theorem c2_get_temperature_raises_witness :
    (get_temperature 0 0 0 ⟨true, 0⟩ .fail).exn = some PyExn.unboundLocal :=
  c2_get_temperature_raises 0 0 0 ⟨true, 0⟩ rfl

/-- Claim C3: of the four startup failure handlers, the IO-expander and
PMS5003 handlers do leave their channel inactive with
`failureStreak = MAXCOUNT`, but the BME280 handler raises `TypeError`
(`tempActive, pressActive, humActive = False` unpacks a non-iterable bool)
and the SCD4X handler leaves `co2Count` at `MINCOUNT` instead of
`MAXCOUNT`. -/
theorem c3_startup_handlers :
    bme280InitFailHandler = .error PyExn.typeError ∧
    scd4xInitFailHandler initialChannel = ⟨false, MINCOUNT⟩ ∧
    ioeInitFailHandler = ⟨false, MAXCOUNT⟩ ∧
    pmsInitFailHandler = ⟨false, MAXCOUNT⟩ :=
  ⟨rfl, rfl, rfl, rfl⟩

/-- Claim C4, counterexample: at `(ox, red, nh3) = (1, 0, 1)` the argument
of `log10` for the reducing gas is `0`, and `calc_ppm` does not return `0.0`
for that gas — it propagates `ValueError` to its caller, and `get_gas`
treats the cycle as a read failure (the streak is bumped from 0 to 1 and all
outputs are zeroed). -/
theorem c4_log10_propagates_cx :
    calc_ppm _base_ox _base_red _base_nh3 _ox_factor _red_factor _nh3_factor 1 0 1
      = .error PyExn.valueError ∧
    get_gas ⟨true, 0⟩ (.ok (1, 0, 1)) = (⟨true, 1⟩, (0, 0, 0)) := by
  constructor
  · norm_num [calc_ppm, tenPowLog10, _base_ox, _base_red, _base_nh3]
  · norm_num [get_gas, gasReadFail, calc_ppm, tenPowLog10, _base_ox, _base_red,
      _base_nh3, MAXCOUNT]

/-- Claim C4 as amended: only `ZeroDivisionError` is caught at the
conversion sites, so a gas with baseline 0 yields `0.0`; but with the
module's nonzero baselines a non-positive `log10` argument raises
`ValueError`, which escapes `calc_ppm`, and `get_gas` handles the cycle
exactly as it handles a failed read. -/
theorem c4_calc_ppm_amended (ox red nh3 : ℚ) (hred : red ≤ 0) (st : Channel)
    (h : st.active = true) :
    calc_ppm _base_ox _base_red _base_nh3 _ox_factor _red_factor _nh3_factor ox red nh3
      = .error PyExn.valueError ∧
    get_gas st (.ok (ox, red, nh3)) = get_gas st .fail ∧
    (∀ x r n : ℚ, calc_ppm _base_ox 0 0 _ox_factor _red_factor _nh3_factor x r n
      = .ok (pyRound2 ((x / _base_ox) * _ox_factor), 0, 0)) := by
  refine ⟨calc_ppm_nonpos_red ox red nh3 hred, ?_, ?_⟩
  · simp [get_gas, h, calc_ppm_nonpos_red ox red nh3 hred]
  · intro x r n
    simp [calc_ppm, _base_ox]

/-- Witness for C4's amended theorem at `(1, 0, 1)` from an active state. -/
theorem c4_calc_ppm_amended_witness :
    calc_ppm _base_ox _base_red _base_nh3 _ox_factor _red_factor _nh3_factor 1 0 1
      = .error PyExn.valueError ∧
    get_gas ⟨true, 0⟩ (.ok (1, 0, 1)) = get_gas ⟨true, 0⟩ .fail ∧
    (∀ x r n : ℚ, calc_ppm _base_ox 0 0 _ox_factor _red_factor _nh3_factor x r n
      = .ok (pyRound2 ((x / _base_ox) * _ox_factor), 0, 0)) :=
  c4_calc_ppm_amended 1 0 1 (by norm_num) ⟨true, 0⟩ rfl

/-- Claim C5, counterexample: feed the CPU-temperature sample stream
10, 20, 30, 40, … with factor 1 and raw reading 0.  On cycle 1 the code
reports −32 (it rebuilds the list from that call's two fresh samples,
30 and 40), while the spec's retained trailing average — seeded from the
first sample and fed one sample per cycle — would report −12; the two
disagree, so the reported value is not the spec's moving average. -/
theorem c5_avg_not_trailing_cx :
    codeTempReport (fun n => 10 * ((n : ℚ) + 1)) 1 0 1 = -32 ∧
    specTempReport (fun n => 10 * ((n : ℚ) + 1)) 1 0 1 = -12 ∧
    codeTempReport (fun n => 10 * ((n : ℚ) + 1)) 1 0 1
      ≠ specTempReport (fun n => 10 * ((n : ℚ) + 1)) 1 0 1 := by
  refine ⟨?_, ?_, ?_⟩ <;>
    norm_num [codeTempReport, specTempReport, specAvgCpuTemp, specCpuHist,
      get_temperature, avgCpuTemp, initialChannel]

/-- Claim C5 as amended: with a nonzero factor, a successful read reports
`raw - ((avg - raw) / factor)` where `avg = (4·a + b) / 5` over the two CPU
samples `a`, `b` taken during that same call; the smoothing list is a local
rebuilt on every call, so nothing carries over between cycles. -/
theorem c5_compensation_formula (factor sample1 sample2 raw : ℚ) (st : Channel)
    (hf : factor ≠ 0) (ha : st.active = true) :
    get_temperature factor sample1 sample2 st (.ok raw)
      = ⟨st, raw - (((4 * sample1 + sample2) / 5 - raw) / factor), none⟩ := by
  simp [get_temperature, ha, hf, avgCpuTemp]
  ring_nf

/-- Witness for C5's amended theorem at factor 1, samples 10 and 20, raw
reading 0. -/
theorem c5_compensation_formula_witness :
    get_temperature 1 10 20 initialChannel (.ok 0)
      = ⟨initialChannel, 0 - (((4 * 10 + 20) / 5 - 0) / 1), none⟩ :=
  c5_compensation_formula 1 10 20 0 initialChannel (by norm_num) rfl

/-- Claim C6, counterexample: at `adc = 1.11` the exported O2 value is
`11.766` — the raw formula applied to the pre-rounded ADC — whereas the
claim's `round(((adc·0.212)/2)·100, 2)` would be `11.77`; `get_o2` rounds
the ADC first and never rounds the result. -/
theorem c6_o2_round_order_cx :
    (get_o2 ⟨true, 0⟩ (.ok (111 / 100))).2 = 5883 / 500 ∧
    pyRound2 ((((111 / 100) * (212 / 1000)) / 2) * 100) = 1177 / 100 ∧
    (get_o2 ⟨true, 0⟩ (.ok (111 / 100))).2
      ≠ pyRound2 ((((111 / 100) * (212 / 1000)) / 2) * 100) := by
  refine ⟨?_, ?_, ?_⟩ <;> norm_num [get_o2, pyRound2, roundHalfEven]

/-- Claim C6 as amended: on a successful read the ADC value is rounded to 2
decimals and the exported value is `((adc·0.212)/2)·100` of the rounded ADC
with no further rounding; `adc = 2.0` still yields exactly `21.2`. -/
theorem c6_o2_formula (st : Channel) (adc : ℚ) (h : st.active = true) :
    (get_o2 st (.ok adc)).2 = ((pyRound2 adc * (212 / 1000)) / 2) * 100 ∧
    (get_o2 st (.ok 2)).2 = 212 / 10 := by
  constructor
  · simp [get_o2, h]
  · simp [get_o2, h, pyRound2, roundHalfEven]
    norm_num

/-- Witness for C6's amended theorem at `adc = 2` from an active state. -/
theorem c6_o2_formula_witness :
    (get_o2 ⟨true, 0⟩ (.ok 2)).2 = ((pyRound2 2 * (212 / 1000)) / 2) * 100 ∧
    (get_o2 ⟨true, 0⟩ (.ok 2)).2 = 212 / 10 :=
  c6_o2_formula ⟨true, 0⟩ 2 rfl

/-- Claim C7: a successful particulate read writes the cumulative values to
the three gauges unmodified and observes `pm1`, `pm25 − pm1`, `pm10 − pm25`
into the histograms, leaving the channel state untouched. -/
theorem c7_particulate_deltas (st : Channel) (pm1 pm25 pm10 : ℚ)
    (h : st.active = true) :
    get_particulates st (.ok (pm1, pm25, pm10))
      = (st, ⟨pm1, pm25, pm10, pm1, pm25 - pm1, pm10 - pm25⟩) := by
  simp [get_particulates, h]

/-- Witness for C7 at the spec's example readings 10, 15, 20: histogram
observations 10, 5 and 5. -/
theorem c7_particulate_deltas_witness :
    get_particulates ⟨true, 0⟩ (.ok (10, 15, 20))
      = (⟨true, 0⟩, ⟨10, 15, 20, 10, 5, 5⟩) := by
  rw [c7_particulate_deltas ⟨true, 0⟩ 10 15 20 rfl]
  norm_num

/-- Claim C8: while a channel is active with any streak value in
`[0, MAXCOUNT]`, a successful read leaves the channel state (both the
active flag and the failure streak) unchanged, for every channel; for the
gas channel this needs the conversion to succeed, i.e. positive
reducing/ammonia readings. -/
theorem c8_success_frame (st : Channel) (v l p p1 p2 p3 ox red nh3 f a b : ℚ)
    (h : st.active = true) (hc : st.count ≤ MAXCOUNT)
    (hred : 0 < red) (hnh3 : 0 < nh3) :
    (get_pressure st (.ok v)).1 = st ∧
    (get_humidity st (.ok v)).1 = st ∧
    (get_light st (.ok (l, p))).1 = st ∧
    (get_o2 st (.ok v)).1 = st ∧
    (get_co2 st (.ok v)).1 = st ∧
    (get_particulates st (.ok (p1, p2, p3))).1 = st ∧
    (get_temperature f a b st (.ok v)).st = st ∧
    (get_gas st (.ok (ox, red, nh3))).1 = st := by
  refine ⟨?_, ?_, ?_, ?_, ?_, ?_, ?_, ?_⟩
  · simp [get_pressure, h]
  · simp [get_humidity, h]
  · simp [get_light, h]
  · simp [get_o2, h]
  · simp [get_co2, h]
  · simp [get_particulates, h]
  · by_cases hf : f = 0 <;> simp [get_temperature, h, hf]
  · simp [get_gas, h, calc_ppm_pos ox red nh3 hred hnh3]

/-- Witness for C8 at the active state with streak 1 and concrete readings. -/
theorem c8_success_frame_witness :
    (get_pressure ⟨true, 1⟩ (.ok 7)).1 = (⟨true, 1⟩ : Channel) ∧
    (get_humidity ⟨true, 1⟩ (.ok 7)).1 = (⟨true, 1⟩ : Channel) ∧
    (get_light ⟨true, 1⟩ (.ok (7, 7))).1 = (⟨true, 1⟩ : Channel) ∧
    (get_o2 ⟨true, 1⟩ (.ok 7)).1 = (⟨true, 1⟩ : Channel) ∧
    (get_co2 ⟨true, 1⟩ (.ok 7)).1 = (⟨true, 1⟩ : Channel) ∧
    (get_particulates ⟨true, 1⟩ (.ok (7, 7, 7))).1 = (⟨true, 1⟩ : Channel) ∧
    (get_temperature 7 7 7 ⟨true, 1⟩ (.ok 7)).st = (⟨true, 1⟩ : Channel) ∧
    (get_gas ⟨true, 1⟩ (.ok (7, 1, 1))).1 = (⟨true, 1⟩ : Channel) :=
  c8_success_frame ⟨true, 1⟩ 7 7 7 7 7 7 7 1 1 7 7 7 rfl (by decide)
    (by norm_num) (by norm_num)

/-- Claim C9: the invariant fails in the temperature channel's cooldown
path — from the deactivated state `⟨false, MAXCOUNT⟩` the opening
`tempCount += 1` raises the counter to `MAXCOUNT + 1 = 3`, outside
`[MINCOUNT, MAXCOUNT]`, before the decrement brings it back, and the net
step makes no cooldown progress at all. -/
theorem c9_temp_cooldown_overflow :
    tempInactiveIncrement ⟨false, MAXCOUNT⟩ = MAXCOUNT + 1 ∧
    ¬ tempInactiveIncrement ⟨false, MAXCOUNT⟩ ≤ MAXCOUNT ∧
    tempInactiveStep ⟨false, MAXCOUNT⟩ = ⟨false, MAXCOUNT⟩ := by
  decide

/-- Claim C10: the lux and proximity metrics share one health state, and in
every cycle in which the light read fails or the channel is inactive, both
gauges are written 0 together by that same `get_light` call. -/
theorem c10_light_zero_together (st : Channel) (r : ReadResult (ℚ × ℚ))
    (h : st.active = false ∨ r = .fail) :
    (get_light st r).2 = (0, 0) := by
  obtain ⟨a, c⟩ := st
  cases a
  · simp only [get_light]
    norm_num
    split <;> rfl
  · rcases h with h | h
    · simp at h
    · subst h
      simp only [get_light]
      norm_num
      split <;> rfl

/-- Witness for C10 at an active state whose read fails. -/
theorem c10_light_zero_together_witness :
    (get_light ⟨true, 0⟩ .fail).2 = (0, 0) :=
  c10_light_zero_together ⟨true, 0⟩ .fail (Or.inr rfl)

end Enviro
